import Mathlib

/-!
Verification of the dso-api filtering, ordering, middleware and remote-proxy
core against its natural-language specification.

The Python sources under `rest_framework_dso/filters.py`,
`dso_api/dynamic_api/middleware.py` and `dso_api/dynamic_api/remote/views.py`
are shallowly embedded below: each custom lookup's `as_sql` method is rendered
as a function producing a small SQL predicate AST, which is evaluated with the
store's three-valued (Kleene) logic; string transformations and request
handling become plain Lean functions.
-/

namespace DsoApi

/-! ## SQL predicate AST and three-valued evaluation

A database row binds each column name to `Option String`: `none` is SQL NULL.
`SqlPred` covers exactly the predicate shapes produced by the custom lookups
in `rest_framework_dso/filters.py`.  `sqlEval` is the store collaborator's
standard three-valued semantics: a comparison with NULL is unknown (`none`),
`IS [NOT] FALSE` and `IS [NOT] NULL` are two-valued tests, and `OR` is
Kleene disjunction.  A row matches a WHERE clause only when the predicate
evaluates to `some true`. -/

/-- A database row: column name to value, `none` meaning SQL NULL. -/
def Row : Type := String → Option String

/-- SQL predicates generated by the custom lookups. -/
inductive SqlPred : Type
  /-- Predicate `col = 'lit'` (the literal is never NULL here). -/
  | eqLit (col : String) (lit : String)
  /-- Predicate `col != %s` where the bound parameter may be NULL (`none`). -/
  | neParam (col : String) (param : Option String)
  /-- Predicate `(p) IS FALSE`. -/
  | isFalse (p : SqlPred)
  /-- Predicate `(p) IS NOT FALSE`. -/
  | isNotFalse (p : SqlPred)
  /-- Predicate `col IS NULL`. -/
  | isNull (col : String)
  /-- Predicate `col IS NOT NULL`. -/
  | isNotNull (col : String)
  /-- Predicate `p OR q`. -/
  | or (p q : SqlPred)
  deriving Repr, DecidableEq

/-- Kleene disjunction on `Option Bool` (SQL `OR`). -/
def kOr : Option Bool → Option Bool → Option Bool
  | some true, _ => some true
  | _, some true => some true
  | some false, some false => some false
  | _, _ => none

/-- Three-valued evaluation of a SQL predicate over a row. -/
def sqlEval (row : Row) : SqlPred → Option Bool
  | .eqLit col lit => (row col).map fun v => v = lit
  | .neParam col param =>
      match row col, param with
      | some v, some p => some (decide (v ≠ p))
      | _, _ => none
  | .isFalse p => some (decide (sqlEval row p = some false))
  | .isNotFalse p => some (decide (sqlEval row p ≠ some false))
  | .isNull col => some (decide (row col = none))
  | .isNotNull col => some (decide (row col ≠ none))
  | .or p q => kOr (sqlEval row p) (sqlEval row q)

/-- A row matches a WHERE clause only when it evaluates to `some true`. -/
def sqlMatches (p : SqlPred) (row : Row) : Bool :=
  sqlEval row p = some true

/-! ## `IsEmpty.as_sql` (filters.py lines 100-112)

Python:
```
not_negation = "NOT " if len(rhs_params) == 1 and rhs_params[0] == "True" else ""
return f"({lhs} = '') IS {not_negation}FALSE", params
```
The boolean filter value arrives through `CharField.get_prep_value`, so the
single right-hand parameter is the string `"True"` or `"False"`. -/

/-- The predicate produced by `IsEmpty.as_sql` for column `lhs` and the
prepared right-hand parameters `rhs_params`. -/
def isEmpty_as_sql (rhs_params : List String) (lhs : String) : SqlPred :=
  if rhs_params.length = 1 ∧ rhs_params.headI = "True" then
    .isNotFalse (.eqLit lhs "")
  else
    .isFalse (.eqLit lhs "")

/-! ## `NotEqual.as_sql` (filters.py lines 115-150)

Python:
```
lhs, lhs_params = self.process_lhs(...)          # (field, [])
rhs, rhs_params = self.process_rhs(...)          # ("%s", [value])
if lhs_nullable and rhs is not None:
    return f"({lhs} IS NULL OR {lhs} != {rhs})", ...
elif rhs_params and rhs_params[0] is None:
    return f"{lhs} IS NOT NULL", lhs_params
else:
    return f"{lhs} != {rhs}", lhs_params + rhs_params
```
`rhs` is the placeholder string `"%s"` (as the code's own inline comment
records), so `rhs is not None` is always true; `rhs_params` is the singleton
list holding the filter value, which is `None` for a `field[not]=<null>`
lookup.  `lhs_nullable` is the column's nullability extracted from the model
metadata. -/

/-- The predicate produced by `NotEqual.as_sql` for a column `lhs` with
nullability `lhs_nullable` and filter value `value` (`none` = null). -/
def notEqual_as_sql (lhs_nullable : Bool) (lhs : String) (value : Option String) :
    SqlPred :=
  -- `rhs is not None` always holds: rhs is the "%s" placeholder string.
  if lhs_nullable ∧ True then
    .or (.isNull lhs) (.neParam lhs value)
  else if value = none then
    .isNotNull lhs
  else
    .neParam lhs value

/-! ## `Wildcard.get_db_prep_lookup` (filters.py lines 153-183)

Python:
```
value = (value
    .replace("\\", "\\\\")
    .replace("%", r"\%")
    .replace("_", r"\_")
    .replace("*", "%")
    .replace("?", "_"))
```
Strings are embedded as `List Char`.  Python's `str.replace` with a
single-character pattern substitutes every occurrence of that character
independently, which is `List.bind`: -/

/-- Python `str.replace(a, r)` specialised to a single-character pattern. -/
def pyReplace1 (a : Char) (r : List Char) (s : List Char) : List Char :=
  s.flatMap fun c => if c = a then r else [c]

/-- The transformation of `Wildcard.get_db_prep_lookup`: escape `\\`, `%`, `_`, then turn `*` into
the SQL `%` wildcard and `?` into `_`. -/
def wildcard_get_db_prep_lookup (value : List Char) : List Char :=
  pyReplace1 '?' ['_']
    (pyReplace1 '*' ['%']
      (pyReplace1 '_' ['\\', '_']
        (pyReplace1 '%' ['\\', '%']
          (pyReplace1 '\\' ['\\', '\\'] value))))

/-- Tokenised `LIKE` pattern alphabet: the `%` and `_` wildcards, the `\\`
escape marker, and literal characters. -/
inductive LikeTok : Type
  | percent
  | underscore
  | esc
  | lit (c : Char)
  deriving Repr, DecidableEq

/-- Classify one pattern character for `LIKE` matching. -/
def likeTok (c : Char) : LikeTok :=
  if c = '%' then .percent
  else if c = '_' then .underscore
  else if c = '\\' then .esc
  else .lit c

/-- The character a token denotes when taken literally (after an escape). -/
def tokChar : LikeTok → Char
  | .percent => '%'
  | .underscore => '_'
  | .esc => '\\'
  | .lit c => c

/-- Matching of a tokenised `LIKE` pattern: `%` matches any (possibly empty)
suffix split, `_` exactly one character, `\\c` the literal character `c`,
and a literal character itself. -/
def likeMatchT : List LikeTok → List Char → Bool
  | [], s => s.isEmpty
  | .percent :: p, s => s.tails.any fun t => likeMatchT p t
  | .underscore :: p, s =>
    match s with
    | [] => false
    | _ :: s' => likeMatchT p s'
  | .esc :: t :: p, s =>
    match s with
    | [] => false
    | e :: s' => (e = tokChar t : Bool) && likeMatchT p s'
  | [.esc], _ => false
  | .lit c :: p, s =>
    match s with
    | [] => false
    | e :: s' => (e = c : Bool) && likeMatchT p s'

/-- The store collaborator's `LIKE` matching with `\\` as escape character. -/
def likeMatch (p s : List Char) : Bool :=
  likeMatchT (p.map likeTok) s

/-- Tokenised DSO wildcard alphabet: `*`, `?`, and literal characters. -/
inductive GlobTok : Type
  | star
  | qmark
  | lit (c : Char)
  deriving Repr, DecidableEq

/-- Classify one character of a DSO wildcard filter value. -/
def globTok (c : Char) : GlobTok :=
  if c = '*' then .star
  else if c = '?' then .qmark
  else .lit c

/-- DSO wildcard matching on a tokenised value: `*` matches zero or more
characters, `?` exactly one, and every other character — including `%`,
`_` and `\\` — only itself. -/
def globMatchT : List GlobTok → List Char → Bool
  | [], s => s.isEmpty
  | .star :: p, s => s.tails.any fun t => globMatchT p t
  | .qmark :: p, s =>
    match s with
    | [] => false
    | _ :: s' => globMatchT p s'
  | .lit c :: p, s =>
    match s with
    | [] => false
    | e :: s' => (e = c : Bool) && globMatchT p s'

/-- The DSO wildcard semantics exactly as the spec words them. -/
def globMatch (v s : List Char) : Bool :=
  globMatchT (v.map globTok) s

/-- Per-character effect of the five chained `replace` calls in
`Wildcard.get_db_prep_lookup`. -/
def escChar (c : Char) : List Char :=
  if c = '\\' then ['\\', '\\']
  else if c = '%' then ['\\', '%']
  else if c = '_' then ['\\', '_']
  else if c = '*' then ['%']
  else if c = '?' then ['_']
  else [c]

theorem wildcard_prep_eq_flatMap (v : List Char) :
    wildcard_get_db_prep_lookup v = v.flatMap escChar := by
  induction v with
  | nil => rfl
  | cons c v ih =>
    have h : wildcard_get_db_prep_lookup (c :: v)
        = escChar c ++ wildcard_get_db_prep_lookup v := by
      unfold wildcard_get_db_prep_lookup escChar
      by_cases h1 : c = '\\' <;> by_cases h2 : c = '%' <;> by_cases h3 : c = '_' <;>
        by_cases h4 : c = '*' <;> by_cases h5 : c = '?' <;>
        simp_all [pyReplace1]
    rw [h, ih, List.flatMap_cons]

theorem likeMatchT_flatMap_escChar (v : List Char) :
    ∀ s, likeMatchT ((v.flatMap escChar).map likeTok) s
      = globMatchT (v.map globTok) s := by
  induction v with
  | nil => intro s; rfl
  | cons c v ih =>
    intro s
    rw [List.flatMap_cons, List.map_append, List.map_cons]
    by_cases h1 : c = '\\'
    · subst h1
      simp only [escChar, likeTok, globTok, if_pos, if_neg, List.map_cons,
        List.map_nil, reduceIte, List.cons_append, List.nil_append]
      cases s with
      | nil => rfl
      | cons e s' => simp [likeMatchT, globMatchT, tokChar, likeTok, ih s']
    · by_cases h2 : c = '%'
      · subst h2
        simp only [escChar, likeTok, globTok, List.map_cons, List.map_nil,
          reduceIte, List.cons_append, List.nil_append]
        cases s with
        | nil => rfl
        | cons e s' => simp [likeMatchT, globMatchT, tokChar, likeTok, ih s']
      · by_cases h3 : c = '_'
        · subst h3
          simp only [escChar, likeTok, globTok, List.map_cons, List.map_nil,
            reduceIte, List.cons_append, List.nil_append]
          cases s with
          | nil => rfl
          | cons e s' => simp [likeMatchT, globMatchT, tokChar, likeTok, ih s']
        · by_cases h4 : c = '*'
          · subst h4
            simp only [escChar, likeTok, globTok, List.map_cons, List.map_nil,
              reduceIte, List.cons_append, List.nil_append]
            show likeMatchT (.percent :: _) s = globMatchT (.star :: _) s
            simp only [likeMatchT, globMatchT]
            exact congrArg (List.any s.tails) (funext fun t => ih t)
          · by_cases h5 : c = '?'
            · subst h5
              simp only [escChar, likeTok, globTok, List.map_cons, List.map_nil,
                reduceIte, List.cons_append, List.nil_append]
              cases s with
              | nil => rfl
              | cons e s' => simp [likeMatchT, globMatchT, ih s']
            · simp only [escChar, likeTok, globTok, if_neg h1, if_neg h2,
                if_neg h3, if_neg h4, if_neg h5, List.map_cons, List.map_nil,
                List.cons_append, List.nil_append]
              cases s with
              | nil => rfl
              | cons e s' => simp [likeMatchT, globMatchT, ih s']

/-- **C4**: the text-field equality filter value is interpreted as a pattern
where `*` matches zero-or-more characters and `?` exactly one, with literal
`%`, `_` and `\\` escaped before the `*`-to-`%` and `?`-to-`_` substitution:
matching the prepared `LIKE` pattern under the store's semantics coincides,
on every string, with the DSO wildcard semantics in which `%`, `_` and `\\`
only match themselves — never a store-level wildcard interpretation. -/
theorem wildcard_filter_equals_glob_semantics (value s : List Char) :
    likeMatch (wildcard_get_db_prep_lookup value) s = globMatch value s := by
  rw [likeMatch, globMatch, wildcard_prep_eq_flatMap]
  exact likeMatchT_flatMap_escChar value s

/-- **C1 counterexample**: on a row whose text field is NULL, the claim says
`f[isempty]=true` does not match and `f[isempty]=false` does match; the
predicates generated by `IsEmpty.as_sql` do the exact opposite under the
store's three-valued logic: `(f = '') IS NOT FALSE` is true on NULL and
`(f = '') IS FALSE` is false on NULL. -/
theorem isEmpty_null_row_counterexample :
    sqlMatches (isEmpty_as_sql ["True"] "f") (fun _ => none) = true ∧
    sqlMatches (isEmpty_as_sql ["False"] "f") (fun _ => none) = false := by
  decide

/-- **C1 (amended)**: `f[isempty]=true` matches exactly the rows where `f`
is the empty string or NULL, and `f[isempty]=false` matches exactly the
remaining rows (non-empty, non-NULL); the generated predicate for the false
case is `(field = '') IS FALSE`. -/
theorem isEmpty_filter_semantics (col : String) (row : Row) :
    (sqlMatches (isEmpty_as_sql ["True"] col) row
      ↔ (row col = some "" ∨ row col = none)) ∧
    (sqlMatches (isEmpty_as_sql ["False"] col) row
      ↔ ¬(row col = some "" ∨ row col = none)) ∧
    isEmpty_as_sql ["False"] col = .isFalse (.eqLit col "") := by
  refine ⟨?_, ?_, by simp [isEmpty_as_sql]⟩ <;>
    rcases h : row col with _ | s <;>
      simp [sqlMatches, isEmpty_as_sql, sqlEval, h]

/-- **C2**: evaluation of `NotEqual.as_sql` at the failing input.  For a
non-nullable column, `field[not]=<null>` is indeed translated into
`field IS NOT NULL`.  For a nullable column, however, the guard
`rhs is not None` compares the always-non-None `"%s"` placeholder, so the
generated predicate is `(field IS NULL OR field != NULL)`, which matches
exactly the NULL rows — the opposite of the `IS NOT NULL` predicate the
claim (and the code's own `# Allow field__not=None to work` comment)
requires. -/
theorem notEqual_null_value_translation (col : String) :
    notEqual_as_sql false col none = .isNotNull col ∧
    notEqual_as_sql true col none = .or (.isNull col) (.neParam col none) ∧
    sqlMatches (notEqual_as_sql true "f" none) (fun _ => some "a") = false ∧
    sqlMatches (notEqual_as_sql true "f" none) (fun _ => none) = true := by
  refine ⟨by simp [notEqual_as_sql], by simp [notEqual_as_sql], by decide, by decide⟩

/-- **C6**: for a nullable column and a non-null value `v`, the predicate
generated by `NotEqual.as_sql` is `field IS NULL OR field != value`, and it
matches exactly the rows where the column is NULL together with the non-null
rows whose value differs from `v`. -/
theorem notEqual_nonnull_value_on_nullable (col : String) (v : String) (row : Row) :
    notEqual_as_sql true col (some v) = .or (.isNull col) (.neParam col (some v)) ∧
    (sqlMatches (notEqual_as_sql true col (some v)) row
      ↔ (row col = none ∨ ∃ a, row col = some a ∧ a ≠ v)) := by
  refine ⟨by simp [notEqual_as_sql], ?_⟩
  rcases h : row col with _ | a
  · simp [sqlMatches, notEqual_as_sql, sqlEval, kOr, h]
  · by_cases ha : a = v <;>
      simp [sqlMatches, notEqual_as_sql, sqlEval, kOr, h, ha]

/-! ## Error taxonomy

Exceptions raised by the embedded code.  `validationError` is the REST
framework `ValidationError` (rendered as HTTP 400); `valueError` is a plain
Python `ValueError`, which no handler in this code base catches (it surfaces
as a server error, not a client-facing 400).  The remote-proxy constructors
mirror `dso_api.lib.exceptions`. -/

inductive ApiError : Type
  | validationError (msg : String)
  | valueError (msg : String)
  | notAuthenticated (msg : Option String)
  | notFound (msg : Option String)
  | badGateway (msg : Option String)
  | remoteAPIException (status : Nat) (data : String)
  | gatewayTimeout
  | serviceUnavailable (msg : String)
  deriving Repr, DecidableEq

/-- Modelled from the spec: the HTTP status each error class renders as;
`dso_api/lib/exceptions.py` is not under `src/`, so the remote-proxy status
codes follow the spec's taxonomy (502/503/504), the DRF classes their
documented codes, and an uncaught `ValueError` a 500 server error. -/
def statusOf : ApiError → Nat
  | .validationError _ => 400
  | .valueError _ => 500
  | .notAuthenticated _ => 403
  | .notFound _ => 404
  | .badGateway _ => 502
  | .remoteAPIException status _ => status
  | .gatewayTimeout => 504
  | .serviceUnavailable _ => 503

/-! ## Geometry `[contains]` validation (filters.py lines 39-97, 586-620)

Coordinates are embedded as rationals (`ℚ`): all inputs in scope are short
decimal literals, which `float()` parses exactly, so the Python float
comparisons agree with the rational ones. -/

/-- The `_valid_rd` national-grid (RD) bounding box check. -/
def _valid_rd (x y : ℚ) : Bool :=
  if ¬((0 : ℚ) ≤ x ∧ x ≤ 280000) then false
  else if ¬((300000 : ℚ) ≤ y ∧ y ≤ 625000) then false
  else true

/-- The `_valid_lat_lon` Netherlands lat/lon bounding box check. -/
def _valid_lat_lon (lat lon : ℚ) : Bool :=
  if ¬((50.803721015 : ℚ) ≤ lat ∧ lat ≤ 53.5104033474) then false
  else if ¬((3.31497114423 : ℚ) ≤ lon ∧ lon ≤ 7.09205325687) then false
  else true

/-- Python truthiness of the optional srid (`not srid`): `None` and `0` are
falsy. -/
def pyFalsy : Option Int → Bool
  | none => true
  | some n => n == 0

/-- The `_validate_convert_x_y` helper (filters.py lines 76-97), with the sequential
reassignment of `x_lon`, `y_lat` and `srid` made explicit. -/
def _validate_convert_x_y (x y : ℚ) (srid : Option Int) :
    Option ℚ × Option ℚ × Option Int :=
  let fx := x
  let fy := y
  -- x_lon = y_lat = None
  let st :=
    if pyFalsy srid || srid == some 4326 then
      if _valid_lat_lon fx fy then (some y, some x, some 4326)
      else if _valid_lat_lon fy fx then (some x, some y, some 4326)
      else ((none : Option ℚ), (none : Option ℚ), srid)
    else ((none : Option ℚ), (none : Option ℚ), srid)
  match st with
  | (x_lon, y_lat, srid1) =>
    if pyFalsy srid1 || srid1 == some 28992 then
      if _valid_rd fx fy then (some x, some y, some 28992)
      else (x_lon, y_lat, srid1)
    else if ¬(srid1 == some 28992 || srid1 == some 4326) then (some x, some y, srid1)
    else (x_lon, y_lat, srid1)

/-- The message of the `ValueError` raised in
`DSOFilterSetBackend.get_filterset`: `f"Invalid x,y values : {x},{y}"`. -/
def invalid_xy_msg (x y : ℚ) : String :=
  s!"Invalid x,y values : {x},{y}"

/-- The geometry step of `DSOFilterSetBackend.get_filterset`
(filters.py lines 609-615) for an already-parsed `[contains]` coordinate
pair: validate/convert, and raise `ValueError` when an accepted srid ended
up with missing coordinates; on success the triple is handed to the
`GEOSGeometry` constructor (an external collaborator). -/
def geo_contains_step (x y : ℚ) (accept_srid : Option Int) :
    Except ApiError (Option ℚ × Option ℚ × Option Int) :=
  match _validate_convert_x_y x y accept_srid with
  | (x_lon, y_lat, srid) =>
    if (srid == some 4326 || srid == some 28992) && (x_lon == none || y_lat == none) then
      .error (.valueError (invalid_xy_msg x y))
    else
      .ok (x_lon, y_lat, srid)

/-- **C5 counterexample**: the pair `(1, 1)` satisfies neither the
Netherlands lat/lon box (in either order) nor the RD box.  With no requested
system the filter step raises nothing at all (the null coordinates travel on
to the geometry constructor), and with the accepted system 4326 requested it
raises a plain `ValueError` — in neither case the `ValidationError` the
claim requires. -/
theorem geo_neither_box_counterexample :
    _valid_lat_lon 1 1 = false ∧ _valid_rd 1 1 = false ∧
    geo_contains_step 1 1 none = .ok (none, none, none) ∧
    geo_contains_step 1 1 (some 4326) = .error (.valueError (invalid_xy_msg 1 1)) := by
  refine ⟨?_, ?_, ?_, ?_⟩ <;>
    norm_num [geo_contains_step, _validate_convert_x_y, _valid_lat_lon, _valid_rd,
      pyFalsy]

/-- **C5 (amended)**: for a coordinate pair satisfying neither accepted
bounding box: with an explicitly requested accepted system (4326 or 28992)
the filter raises a plain `ValueError` citing the offending coordinates —
an uncaught server-side error, not a client-facing `ValidationError` — and
with no requested system nothing is raised at this step and the null
coordinates are passed through to the geometry constructor. -/
theorem geo_neither_box_behaviour (x y : ℚ)
    (h1 : _valid_lat_lon x y = false) (h2 : _valid_lat_lon y x = false)
    (h3 : _valid_rd x y = false) :
    geo_contains_step x y (some 4326) = .error (.valueError (invalid_xy_msg x y)) ∧
    geo_contains_step x y (some 28992) = .error (.valueError (invalid_xy_msg x y)) ∧
    geo_contains_step x y none = .ok (none, none, none) := by
  refine ⟨?_, ?_, ?_⟩ <;>
    simp [geo_contains_step, _validate_convert_x_y, pyFalsy, h1, h2, h3]

/-- Witness for `geo_neither_box_behaviour` at the concrete pair `(1, 1)`. -/
theorem geo_neither_box_behaviour_witness :
    _valid_lat_lon 1 1 = false ∧ _valid_rd 1 1 = false ∧
    geo_contains_step 1 1 (some 4326) = .error (.valueError (invalid_xy_msg 1 1)) := by
  have h1 : _valid_lat_lon 1 1 = false := by norm_num [_valid_lat_lon]
  have h3 : _valid_rd 1 1 = false := by norm_num [_valid_rd]
  exact ⟨h1, h3, (geo_neither_box_behaviour 1 1 h1 h1 h3).1⟩

/-! ## `DSOOrderingFilter` (filters.py lines 623-660)

Query parameters are embedded as an association list; `getParam` is
`QueryDict.get` (first match).  The base DRF `OrderingFilter.get_ordering`
splits the parameter on commas, strips each term, and filters out terms not
in the view's ordering fields; the DSO subclass raises a `ValidationError`
listing every dropped term instead, and snake-cases the surviving terms. -/

/-- Python `str.strip()`: drop leading and trailing whitespace. -/
def pyStrip (s : String) : String :=
  ⟨((s.data.dropWhile Char.isWhitespace).reverse.dropWhile Char.isWhitespace).reverse⟩

/-- Split a character list on a separator character (Python `str.split(sep)`
semantics: the empty string yields one empty part). -/
def splitChar (sep : Char) : List Char → List (List Char)
  | [] => [[]]
  | c :: rest =>
    if c = sep then [] :: splitChar sep rest
    else
      match splitChar sep rest with
      | [] => [[c]]
      | h :: t => (c :: h) :: t

/-- Python `str.split(sep)` for a one-character separator. -/
def pySplit (sep : Char) (s : String) : List String :=
  (splitChar sep s.data).map fun cs => ⟨cs⟩

/-- Python `sep.join(parts)`. -/
def pyJoin (sep : String) : List String → String
  | [] => ""
  | [x] => x
  | x :: xs => x ++ sep ++ pyJoin sep xs

/-- Lexicographic comparison of character lists (Python string `<=`). -/
def lexLe : List Char → List Char → Bool
  | [], _ => true
  | _ :: _, [] => false
  | a :: as, b :: bs => if a < b then true else if a = b then lexLe as bs else false

/-- Python string `<=` on strings. -/
def pyStrLe (a b : String) : Bool :=
  lexLe a.data b.data

/-- Insert into a `pyStrLe`-sorted list. -/
def insertSorted (x : String) : List String → List String
  | [] => [x]
  | y :: ys => if pyStrLe x y then x :: y :: ys else y :: insertSorted x ys

/-- Python `sorted()` on strings (insertion sort). -/
def pySortStrings : List String → List String
  | [] => []
  | x :: xs => insertSorted x (pySortStrings xs)

/-- Remove adjacent duplicates of a sorted list (so that
`dedupSorted (pySortStrings l)` is Python's `sorted(set(l))`). -/
def dedupSorted : List String → List String
  | [] => []
  | [x] => [x]
  | x :: y :: r => if x == y then dedupSorted (y :: r) else x :: dedupSorted (y :: r)

/-- Python `request.query_params.get(key)`. -/
def getParam (qp : List (String × String)) (k : String) : Option String :=
  (qp.find? fun p => p.1 == k).map (·.2)

/-- The parameter name used for ordering: `_sort`, falling back to the
legacy Dutch `sorteer` alias when `_sort` is absent but `sorteer` given. -/
def ordering_param_for (qp : List (String × String)) : String :=
  if (getParam qp "_sort").isSome then "_sort"
  else if (getParam qp "sorteer").isSome then "sorteer"
  else "_sort"

/-- Modelled from the spec: the external `schematools.utils.to_snake_case`
collaborator normalising external camelCase names to internal snake_case
(`datumCreatie` to `datum_creatie`; snake_case input is left unchanged). -/
def to_snake_case (s : String) : String :=
  ⟨s.toList.flatMap fun c => if c.isUpper then ['_', c.toLower] else [c]⟩

/-- DRF's `term_valid`: a term is valid if, after dropping one leading `-`,
it names one of the view's ordering fields. -/
def term_valid (validFields : List String) (term : String) : Bool :=
  let t : String :=
    match term.data with
    | '-' :: rest => ⟨rest⟩
    | _ => term
  validFields.contains t

/-- The `DSOOrderingFilter.remove_invalid_fields` override: keep DRF's cleaning, but when
anything was dropped raise a `ValidationError` listing
`", ".join(sorted(set(fields).difference(cleaned)))`. -/
def remove_invalid_fields (validFields : List String) (fields : List String) :
    Except ApiError (List String) :=
  let cleaned := fields.filter (term_valid validFields)
  if cleaned ≠ fields then
    .error (.validationError ("Invalid sort fields: " ++ pyJoin ", "
      (dedupSorted (pySortStrings (fields.filter fun t => !cleaned.contains t)))))
  else
    .ok cleaned

/-- The `DSOOrderingFilter.get_ordering` method composed with the base DRF
`OrderingFilter.get_ordering` (no view default ordering): pick the
parameter, split on commas and strip, validate, then snake-case each
surviving term preserving a leading `-`. -/
def dso_get_ordering (validFields : List String) (qp : List (String × String)) :
    Except ApiError (Option (List String)) :=
  let param := ordering_param_for qp
  match getParam qp param with
  | none => .ok none
  | some v =>
    if v ≠ "" then
      match remove_invalid_fields validFields ((pySplit ',' v).map pyStrip) with
      | .error e => .error e
      | .ok ordering =>
        if ordering ≠ [] then
          .ok (some (ordering.map fun x =>
            pyJoin "-" ((pySplit '-' x).map to_snake_case)))
        else .ok none
    else .ok none

/-- **C7**: camelCase sort names are normalised to snake_case; any unknown
or disallowed sort field makes the request fail with a `ValidationError`
listing every invalid field name instead of being silently dropped: a
`_sort` request succeeds exactly when every requested term is a valid field;
in particular `_sort=-datumCreatie` (also via the legacy `sorteer` alias)
orders descending on `datum_creatie`, while `_sort=datum_creatie` is
rejected listing `datum_creatie`, and multiple invalid fields are all
enumerated. -/
theorem sort_normalises_and_rejects_invalid :
    (∀ (validFields : List String) (v : String), v ≠ "" →
      ((dso_get_ordering validFields [("_sort", v)]).isOk = true ↔
        ∀ t ∈ (pySplit ',' v).map pyStrip, term_valid validFields t = true)) ∧
    dso_get_ordering ["id", "datumCreatie"] [("_sort", "-datumCreatie")]
      = .ok (some ["-datum_creatie"]) ∧
    dso_get_ordering ["id", "datumCreatie"] [("sorteer", "-datumCreatie")]
      = .ok (some ["-datum_creatie"]) ∧
    dso_get_ordering ["id", "datumCreatie"] [("_sort", "datum_creatie")]
      = .error (.validationError "Invalid sort fields: datum_creatie") ∧
    dso_get_ordering ["id", "datumCreatie"] [("_sort", "foo,datum_creatie")]
      = .error (.validationError "Invalid sort fields: datum_creatie, foo") := by
  refine ⟨?_, rfl, rfl, rfl, rfl⟩
  intro vf v hv
  have hred : dso_get_ordering vf [("_sort", v)] =
      if v ≠ "" then
        match remove_invalid_fields vf ((pySplit ',' v).map pyStrip) with
        | .error e => .error e
        | .ok ordering =>
          if ordering ≠ [] then
            .ok (some (ordering.map fun x =>
              pyJoin "-" ((pySplit '-' x).map to_snake_case)))
          else .ok none
      else .ok none := rfl
  rw [hred, if_pos hv]
  by_cases hcl : ((pySplit ',' v).map pyStrip).filter (term_valid vf)
      = (pySplit ',' v).map pyStrip
  · have hok : remove_invalid_fields vf ((pySplit ',' v).map pyStrip)
        = .ok (((pySplit ',' v).map pyStrip).filter (term_valid vf)) := by
      unfold remove_invalid_fields
      rw [if_neg (by simp [hcl])]
    rw [hok]
    have hall := List.filter_eq_self.mp hcl
    split
    · next e heq => exact absurd heq (by simp)
    · next ordering heq =>
      have hall' : ∀ a ∈ pySplit ',' v, term_valid vf (pyStrip a) = true := by
        simpa using hall
      split <;> simp [Except.isOk, Except.toBool] <;> exact hall'
  · have herr : remove_invalid_fields vf ((pySplit ',' v).map pyStrip)
        = .error (.validationError ("Invalid sort fields: " ++ pyJoin ", "
            (dedupSorted (pySortStrings (((pySplit ',' v).map pyStrip).filter
              fun t => !(((pySplit ',' v).map pyStrip).filter
                (term_valid vf)).contains t))))) := by
      unfold remove_invalid_fields
      rw [if_pos hcl]
    rw [herr]
    simp only [Except.isOk, Except.toBool]
    constructor
    · intro h; cases h
    · intro hall
      exact absurd (List.filter_eq_self.mpr (by simpa using hall)) hcl

/-- Witness for `sort_normalises_and_rejects_invalid` at a concrete valid
sort request. -/
theorem sort_normalises_witness :
    (dso_get_ordering ["id", "datumCreatie"] [("_sort", "datumCreatie")]).isOk
      = true := by
  exact (sort_normalises_and_rejects_invalid.1 ["id", "datumCreatie"] "datumCreatie"
    (by decide)).mpr (by decide)

/-! ## `TemporalDatasetMiddleware.process_view` (middleware.py lines 27-54)

The dataset attribute is `none` when `DatasetMiddleware` could not attach a
dataset to the request, and `some none` when the dataset's `temporal`
configuration is `None` (a non-temporal dataset). -/

/-- A dataset's temporal configuration: the version-identifier query key and
the optional `dimensions` mapping (key to backing field list). -/
structure TemporalConfig : Type where
  identifier : String
  dimensions : Option (List (String × List String))
  deriving Repr, DecidableEq

/-- The three request attributes assigned by the middleware. -/
structure TemporalState : Type where
  versioned : Bool
  dataset_version : Option String
  dataset_temporal_slice : Option (String × String × List String)
  deriving Repr, DecidableEq

/-- The `TemporalDatasetMiddleware.process_view` hook: initialise the three request
attributes, return early for requests without a dataset or with a
non-temporal dataset, otherwise record the requested version and the last
matching temporal dimension (Python `GET.get` truthiness: an empty string
counts as absent). -/
def temporal_process_view (dataset : Option (Option TemporalConfig))
    (qp : List (String × String)) : TemporalState :=
  -- request.versioned = False; request.dataset_version = None;
  -- request.dataset_temporal_slice = None
  match dataset with
  | none => ⟨false, none, none⟩
  | some none => ⟨false, none, none⟩
  | some (some t) =>
    let version :=
      match getParam qp t.identifier with
      | some v => if v ≠ "" then some v else none
      | none => none
    let slice :=
      match t.dimensions with
      | none => none
      | some dims =>
        dims.foldl
          (fun acc kf =>
            match getParam qp kf.1 with
            | some v => if v ≠ "" then some (kf.1, v, kf.2) else acc
            | none => acc)
          none
    ⟨true, version, slice⟩

/-- **C9**: for a request whose dataset is non-temporal (temporal config
null) — or that carries no dataset at all — the resolver leaves
`versioned` false and both the requested-version field and the
temporal-slice field null, regardless of the query parameters supplied. -/
theorem nontemporal_request_state (qp : List (String × String)) :
    temporal_process_view (some none) qp = ⟨false, none, none⟩ ∧
    temporal_process_view none qp = ⟨false, none, none⟩ :=
  ⟨rfl, rfl⟩

/-! ## `del_none` and `RemoteViewSet.retrieve` (remote/views.py lines 27-37,
83-95)

JSON values as returned by the remote serializer. -/

/-- A JSON value. -/
inductive JValue : Type
  | null
  | str (s : String)
  | num (n : Int)
  | jbool (b : Bool)
  | arr (elems : List JValue)
  | obj (fields : List (String × JValue))
  deriving Repr

/-- The `del_none` helper: delete keys bound to `None`, recursing into dictionary
values but not into lists. -/
def del_none : List (String × JValue) → List (String × JValue)
  | [] => []
  | (k, v) :: rest =>
    match v with
    | .null => del_none rest
    | .obj kvs => (k, JValue.obj (del_none kvs)) :: del_none rest
    | _ => (k, v) :: del_none rest

mutual

/-- The value itself is not `null`, and objects reachable through it (not
through lists) bind no key to `null`. -/
def noNullVal : JValue → Bool
  | .null => false
  | .obj kvs => noNullBound kvs
  | _ => true

/-- No key of the object — nor of any object reachable through nested
object values (lists are not descended into) — is bound to `null`. -/
def noNullBound : List (String × JValue) → Bool
  | [] => true
  | (_, v) :: rest => noNullVal v && noNullBound rest

end

/-- Python `"_links" in serialized_data`. -/
def lookupKey (l : List (String × JValue)) (k : String) : Option JValue :=
  (l.find? fun p => p.1 == k).map (·.2)

/-- The body built by `RemoteViewSet.retrieve` from the validated serializer
data: apply `del_none`, then add a `_links.self` entry when absent. -/
def retrieve_payload (serialized : List (String × JValue)) (self_link : String) :
    List (String × JValue) :=
  let d := del_none serialized
  match lookupKey d "_links" with
  | none => d ++ [("_links", .obj [("self", .obj [("href", .str self_link)])])]
  | some _ => d

theorem noNullBound_append (a b : List (String × JValue)) :
    noNullBound (a ++ b) = (noNullBound a && noNullBound b) := by
  induction a with
  | nil => simp [noNullBound]
  | cons kv rest ih =>
    cases kv with
    | mk k v => simp [noNullBound, ih, Bool.and_assoc]

theorem noNullBound_del_none (l : List (String × JValue)) :
    noNullBound (del_none l) = true := by
  induction l using del_none.induct <;>
    simp_all [del_none, noNullBound, noNullVal]

/-- **C10**: the detail response built by `RemoteViewSet.retrieve` contains
no key bound to a null value, in the top-level object or in any object
reachable through nested object values: `del_none` recursively removes
every `None`-valued key (descending into dictionaries, not into lists), and
the `_links` entry added afterwards introduces no null either. -/
theorem retrieve_payload_no_null_keys (serialized : List (String × JValue))
    (self_link : String) :
    noNullBound (retrieve_payload serialized self_link) = true ∧
    noNullBound (del_none serialized) = true := by
  refine ⟨?_, noNullBound_del_none serialized⟩
  unfold retrieve_payload
  cases h : lookupKey (del_none serialized) "_links" <;>
    simp [h, noNullBound_append, noNullBound_del_none, noNullBound, noNullVal]

/-! ## `RemoteViewSet._call_remote` (remote/views.py lines 110-141) and
`_raise_http_error` (lines 143-208)

The upstream transport is an external collaborator: one call either returns
an HTTP response or fails with a timeout (`TimeoutError` /
`urllib3.exceptions.TimeoutError`) or a connection/TLS error (`OSError` /
`urllib3.exceptions.HTTPError`).  The call is issued with `retries=False`;
`_call_remote` is modelled over a stream of would-be outcomes to make "only
one attempt is consulted" provable. -/

/-- An upstream HTTP response (status, `content-type` header, `Location`
header, body). -/
structure UpstreamResponse : Type where
  status : Nat
  contentType : String
  location : String
  data : String
  deriving Repr, DecidableEq

/-- Result of one outbound transport attempt. -/
inductive RemoteOutcome : Type
  | response (r : UpstreamResponse)
  | timeoutError (msg : String)
  | connectionError (msg : String)
  deriving Repr, DecidableEq

/-- Python `"/oauth/authorize" in location`. -/
def containsSubstr (hay needle : String) : Bool :=
  decide (needle.toList <:+: hay.toList)

/-- The `RemoteViewSet._raise_http_error` method: translate a non-200 upstream response
into the shared error taxonomy. -/
def _raise_http_error (r : UpstreamResponse) : ApiError :=
  let detail_message : Option String :=
    if r.contentType.startsWith "text/html" then none else some r.data
  let fallback := "Unexpected HTTP " ++ toString r.status ++ " from internal endpoint"
  if 300 ≤ r.status ∧ r.status ≤ 399 ∧ containsSubstr r.location "/oauth/authorize" then
    .notAuthenticated (some "Invalid token")
  else if r.status = 400 then
    if r.data = "Missing required MKS headers" then
      .notAuthenticated (some "Internal credentials are missing")
    else if r.contentType = "application/problem+json" then
      .remoteAPIException 400 r.data
    else
      .badGateway detail_message
  else if r.status = 403 then
    .notAuthenticated detail_message
  else if r.status = 404 then
    if r.contentType = "application/problem+json" then
      .remoteAPIException 404 r.data
    else
      .notFound detail_message
  else
    .badGateway (some (match detail_message with
      | some d => if d ≠ "" then d else fallback
      | none => fallback))

/-- The `RemoteViewSet._call_remote` method: issue the single outbound request
(`retries=False` — only the first outcome of the stream is consulted),
translate a timeout into `GatewayTimeout`, a connection/TLS failure into
`ServiceUnavailable(str(e))`, a 200 into the decoded body, and any other
status through `_raise_http_error`. -/
def _call_remote (attempts : Nat → RemoteOutcome) : Except ApiError String :=
  match attempts 0 with
  | .timeoutError _ => .error .gatewayTimeout
  | .connectionError msg => .error (.serviceUnavailable msg)
  | .response r => if r.status = 200 then .ok r.data else .error (_raise_http_error r)

/-- **C8**: an upstream timeout is signalled as Gateway Timeout (504), a
connection/TLS failure as Service Unavailable (503); the error surfaced is
always a member of the taxonomy (the raw transport exception never escapes
to the caller), and the outcome depends only on the first transport attempt
(the call is never retried). -/
theorem remote_call_error_translation (attempts : Nat → RemoteOutcome) :
    (∀ msg, attempts 0 = .timeoutError msg →
      _call_remote attempts = .error .gatewayTimeout ∧
        statusOf .gatewayTimeout = 504) ∧
    (∀ msg, attempts 0 = .connectionError msg →
      _call_remote attempts = .error (.serviceUnavailable msg) ∧
        statusOf (.serviceUnavailable msg) = 503) ∧
    (∀ attempts2 : Nat → RemoteOutcome, attempts 0 = attempts2 0 →
      _call_remote attempts = _call_remote attempts2) := by
  refine ⟨?_, ?_, ?_⟩
  · intro msg h
    unfold _call_remote
    rw [h]
    exact ⟨rfl, rfl⟩
  · intro msg h
    unfold _call_remote
    rw [h]
    exact ⟨rfl, rfl⟩
  · intro attempts2 h
    unfold _call_remote
    rw [h]

/-- Witness for `remote_call_error_translation` at concrete transport
failures. -/
theorem remote_call_error_translation_witness :
    _call_remote (fun _ => .timeoutError "t") = .error .gatewayTimeout ∧
    _call_remote (fun _ => .connectionError "c")
      = .error (.serviceUnavailable "c") :=
  ⟨((remote_call_error_translation fun _ => .timeoutError "t").1 "t" rfl).1,
   ((remote_call_error_translation fun _ => .connectionError "c").2.1 "c" rfl).1⟩

/-! ## Relation expansion under authorization scopes

Modelled from the spec: the `_expand=true` / `_expandScope=<name>` handling
lives in `dso_api/dynamic_api` serializers and permissions, which are not
under `src/` (only the tests exercising them are).  Per the spec's
serialization & authorization contract: with `_expand=true`, relations whose
target table requires a scope the caller does not hold are silently excluded
from `_embedded` and the request succeeds (200); naming such a relation via
`_expandScope` fails the whole request with 403. -/

/-- A relation of a table: its embeddable name and the authorization scope
its target table requires, if any. -/
structure Relation : Type where
  name : String
  requiredScope : Option String
  deriving Repr, DecidableEq

/-- Whether the caller's scope set authorizes an optional required scope. -/
def scopeAuthorized (scopes : List String) : Option String → Bool
  | none => true
  | some s => scopes.contains s

/-- Modelled from the spec: response to `_expand=true` — status 200 with
`_embedded` holding exactly the authorized relations. -/
def expand_true_response (scopes : List String) (rels : List Relation) :
    Nat × List String :=
  (200, (rels.filter fun r => scopeAuthorized scopes r.requiredScope).map (·.name))

/-- Modelled from the spec: response to `_expandScope=<name>` — 403 with no
body when the named relation requires a scope the caller lacks, 200 with
that relation embedded otherwise (an unknown name is a client error). -/
def expand_scope_response (scopes : List String) (rels : List Relation)
    (name : String) : Nat × List String :=
  match rels.find? fun r => r.name == name with
  | some r =>
    if scopeAuthorized scopes r.requiredScope then (200, [r.name]) else (403, [])
  | none => (400, [])

/-- **C3**: for a relation whose target table requires a scope the caller
does not hold, `_expand=true` returns 200 with that relation absent from
`_embedded`, while `_expandScope=<thatRelation>` under the same
authorization returns 403. -/
theorem expand_asymmetry (scopes : List String) (rels : List Relation)
    (r : Relation) (s : String)
    (hnodup : (rels.map Relation.name).Nodup)
    (hmem : r ∈ rels) (hscope : r.requiredScope = some s) (hno : s ∉ scopes) :
    (expand_true_response scopes rels).1 = 200 ∧
    r.name ∉ (expand_true_response scopes rels).2 ∧
    expand_scope_response scopes rels r.name = (403, []) := by
  have hauth : scopeAuthorized scopes r.requiredScope = false := by
    rw [hscope]
    simpa [scopeAuthorized] using hno
  refine ⟨rfl, ?_, ?_⟩
  · intro habs
    simp only [expand_true_response, List.mem_map] at habs
    obtain ⟨r', hr', hname⟩ := habs
    rw [List.mem_filter] at hr'
    have : r' = r :=
      List.inj_on_of_nodup_map hnodup hr'.1 hmem hname
    rw [this] at hr'
    rw [hauth] at hr'
    exact absurd hr'.2 (by simp)
  · have hfind : (rels.find? fun x => x.name == r.name).isSome := by
      rw [List.find?_isSome]
      exact ⟨r, hmem, by simp⟩
    obtain ⟨r', hr'⟩ := Option.isSome_iff_exists.mp hfind
    have hmem' : r' ∈ rels := List.mem_of_find?_eq_some hr'
    have hname' : r'.name = r.name := by
      simpa using List.find?_some hr'
    have : r' = r := List.inj_on_of_nodup_map hnodup hmem' hmem hname'
    subst this
    simp [expand_scope_response, hr', hauth]

/-- Witness for `expand_asymmetry`: a caller without the `BAG/R` scope and a
`cluster` relation protected by it. -/
theorem expand_asymmetry_witness :
    (expand_true_response [] [⟨"cluster", some "BAG/R"⟩]).1 = 200 ∧
    "cluster" ∉ (expand_true_response [] [⟨"cluster", some "BAG/R"⟩]).2 ∧
    expand_scope_response [] [⟨"cluster", some "BAG/R"⟩] "cluster" = (403, []) := by
  exact expand_asymmetry [] [⟨"cluster", some "BAG/R"⟩] ⟨"cluster", some "BAG/R"⟩
    "BAG/R" (by simp) (by simp) rfl (by simp)

end DsoApi
